import Mathlib

/-!
Verification of the tech-health-appendix data-acquisition-and-scoring engine.

The development shallowly embeds the two service-layer units:

* the forge client (`GitHubService` in `src/app/page.tsx`, lines 522-939):
  each operation is modelled as a function from the raw transport outcome
  (`Except ApiErr _`, the octokit response or error) to the value or error the
  service surfaces to its caller;
* the scoring pipeline (`CodeAnalysisService` in `src/unnamed/part_004`, with
  the older variant at `src/app/services/code-analysis-service.ts` embedded
  separately where a claim depends on it).

Modelling conventions:

* JavaScript numbers are embedded as exact rationals (`ℚ`); `Math.floor`,
  `Math.ceil`, `Math.round`, `Math.min/max/abs` become `⌊·⌋`, `⌈·⌉`,
  `⌊· + 1/2⌋`, `min/max/|·|`; `toFixed(2)` followed by `parseFloat` becomes
  rounding to a multiple of 1/100.
* Timestamps (ISO date strings parsed with `new Date`) are embedded as
  milliseconds since the epoch (`Int`); `Date.now()` / `new Date()` is an
  explicit `now : Int` parameter.
* String operations (`includes`, `toLowerCase`, `length`, the conventional
  commit regular expression) are implemented over the character list;
  messages in all concrete inputs are ASCII, where the embedding agrees with
  the UTF-16 semantics of the source.
* Fallible fetches are `Except`; `try/catch` becomes a `match` on the result.
-/

/-- `Math.round` (round half towards positive infinity), as used by the source. -/
def jsRound (x : ℚ) : Int := ⌊x + 1/2⌋

/-- `parseFloat(x.toFixed(2))` for the non-negative values the source applies it to:
round to the nearest multiple of 1/100, half away from zero. -/
def toFixed2 (x : ℚ) : ℚ := (⌊x * 100 + 1/2⌋ : ℚ) / 100

/-- Substring occurrence on character lists (JavaScript `String.prototype.includes`). -/
def strIncludesCore : List Char → List Char → Bool
  | needle, [] => needle.isEmpty
  | needle, c :: t => needle.isPrefixOf (c :: t) || strIncludesCore needle t

/-- JavaScript `hay.includes(needle)`. -/
def strIncludes (hay needle : String) : Bool := strIncludesCore needle.data hay.data

/-- JavaScript `toLowerCase` (the source only feeds it ASCII workflow names,
commit messages and file names, where `Char.toLower` agrees). -/
def strToLower (s : String) : String := ⟨s.data.map Char.toLower⟩

/-- Line terminators not matched by `.` in a JavaScript regular expression. -/
def isLineTerminator (c : Char) : Bool :=
  c = '\n' || c = '\r' || c = Char.ofNat 0x2028 || c = Char.ofNat 0x2029

/-- Search for the regex tail `\):` allowing further `.` characters before it
(the backtracking continuation of `\(.+\):`). -/
def parenColonSearch : List Char → Bool
  | ')' :: ':' :: _ => true
  | c :: rest => !isLineTerminator c && parenColonSearch rest
  | [] => false

/-- The regex fragment `.+\):` — at least one non-line-terminator character,
then a closing parenthesis followed by a colon. -/
def dotPlusThenParenColon : List Char → Bool
  | c :: rest => !isLineTerminator c && parenColonSearch rest
  | [] => false

/-- Commit types of the conventional-commit pattern in `analyzeCommitMessages`. -/
def conventionalTypes : List String :=
  ["feat", "fix", "docs", "style", "refactor", "test", "chore", "perf", "ci", "build", "revert"]

/-- `/^(feat|fix|docs|style|refactor|test|chore|perf|ci|build|revert)(\(.+\))?:/.test(message)`. -/
def conventionalCommitTest (message : String) : Bool :=
  conventionalTypes.any (fun t =>
    t.data.isPrefixOf message.data &&
      (match message.data.drop t.data.length with
       | ':' :: _ => true
       | '(' :: rest => dotPlusThenParenColon rest
       | _ => false))

/-! ## Data model (src/unnamed/part_002, the `types/index.ts` interfaces) -/

/-- `Repository`: fields of the `Repository` interface consumed by the engine.
`created_at` is the parsed timestamp in milliseconds. -/
structure Repository where
  id : Nat
  name : String
  full_name : String
  owner_login : String
  html_url : String
  description : String
  created_at : Int
  updated_at : Int
  pushed_at : Int
  size : Nat
  language : String
  default_branch : String
deriving DecidableEq

/-- The `commit.author` object of a `Commit`. `date` is the parsed timestamp. -/
structure CommitAuthor where
  name : String
  email : String
  date : Int
deriving DecidableEq

/-- The nested `commit` object of a `Commit`. -/
structure CommitData where
  author : CommitAuthor
  message : String
deriving DecidableEq

/-- `Commit` record as returned by the forge. -/
structure Commit where
  sha : String
  commit : CommitData
  html_url : String
deriving DecidableEq

/-- Pull request record; only the fields the pipeline reads. Numeric comment
counts default to zero when the forge omits them (the source guards with
`typeof checks`, and JavaScript truthiness of a missing or zero count
is falsity either way). -/
structure PullRequest where
  title : String
  state : String
  created_at : Option Int
  merged_at : Option Int
  comments : Nat
  review_comments : Nat
deriving DecidableEq

/-- Issue record: fetched by `analyzeTechnicalDebt` and discarded. -/
structure Issue where
  title : String
  state : String
deriving DecidableEq

/-- A single workflow run. -/
structure WorkflowRun where
  name : String
  conclusion : String
  event : String
deriving DecidableEq

/-- The `GET .../actions/runs` response shape `{ workflow_runs, total_count }`. -/
structure WorkflowRunsResponse where
  workflow_runs : List WorkflowRun
  total_count : Nat
deriving DecidableEq

/-- Release record. `published_at` is the parsed timestamp. -/
structure Release where
  tag_name : String
  published_at : Int
deriving DecidableEq

/-- Contributor record (fetched by `getContributors`, unused by the pipeline). -/
structure Contributor where
  login : String
deriving DecidableEq

/-- One entry of a directory listing (only `name` is read). -/
structure DirectoryItem where
  name : String
deriving DecidableEq

/-! ## Forge client (`GitHubService`, src/app/page.tsx lines 522-939)

Each operation is a function of the raw octokit outcome. `ApiErr` is the
error object octokit throws: an HTTP status, a `message`, optionally the
response body message and the rate-limit response headers. -/

/-- The error thrown by octokit, as inspected by the service. The three
`ratelimit*` fields model the `x-ratelimit-reset`, `x-ratelimit-limit` and
`x-ratelimit-remaining` response headers (`reset` in epoch seconds); `none`
models an absent header. -/
structure ApiErr where
  status : Nat
  message : String
  responseDataMessage : Option String
  ratelimitReset : Option Int
  ratelimitLimit : Option Int
  ratelimitRemaining : Option Int
deriving DecidableEq

/-- What the service surfaces: either the distinguished
`GitHubRateLimitError` (with `resetTime` in milliseconds, `limit`,
`remaining`) or the unmodified generic error. -/
inductive GhError where
  | rateLimit (message : String) (resetTime : Int) (limit : Int) (remaining : Int)
  | generic (e : ApiErr)
deriving DecidableEq

/-- `true` exactly on the distinguished rate-limit error. -/
def GhError.isRateLimitError : GhError → Bool
  | .rateLimit _ _ _ _ => true
  | .generic _ => false

/-- The service result carries the distinguished rate-limit condition. -/
def surfacesRateLimit {α : Type} : Except GhError α → Bool
  | .error e => e.isRateLimitError
  | .ok _ => false

/-- The detection condition of `checkRateLimitError` (page.tsx lines 577-584):
status 403 and `API rate limit exceeded` in the error message or response body. -/
def isRateLimitErr (e : ApiErr) : Bool :=
  e.status = 403 &&
    (strIncludes e.message "API rate limit exceeded" ||
      (match e.responseDataMessage with
       | some m => strIncludes m "API rate limit exceeded"
       | none => false))

/-- `GitHubService.checkRateLimitError` (page.tsx lines 575-612): convert a
rate-limit 403 into the distinguished error (reset defaulting to one hour from
now, limit to 60, remaining to 0), re-throw anything else unchanged. -/
def checkRateLimitError (now : Int) (e : ApiErr) : GhError :=
  if isRateLimitErr e then
    .rateLimit "GitHub API rate limit exceeded. Please try again later or provide an access token."
      (match e.ratelimitReset with
       | some reset => reset * 1000
       | none => now + 3600000)
      (e.ratelimitLimit.getD 60)
      (e.ratelimitRemaining.getD 0)
  else
    .generic e

/-- `getRepository` (lines 620-638): the only operation routing its catch
through `checkRateLimitError`. -/
def getRepository (now : Int) (raw : Except ApiErr Repository) : Except GhError Repository :=
  match raw with
  | .ok r => .ok r
  | .error e => .error (checkRateLimitError now e)

/-- `getCommits` (lines 646-662): re-throws the original error. -/
def getCommits (raw : Except ApiErr (List Commit)) : Except GhError (List Commit) :=
  match raw with
  | .ok l => .ok l
  | .error e => .error (.generic e)

/-- `getLanguages` (lines 669-684): re-throws the original error. -/
def getLanguages (raw : Except ApiErr (List (String × Nat))) :
    Except GhError (List (String × Nat)) :=
  match raw with
  | .ok l => .ok l
  | .error e => .error (.generic e)

/-- `getContributors` (lines 691-706): re-throws the original error. -/
def getContributors (raw : Except ApiErr (List Contributor)) :
    Except GhError (List Contributor) :=
  match raw with
  | .ok l => .ok l
  | .error e => .error (.generic e)

/-- `getFileContent` (lines 714-746): decodes the content on success and
re-throws every error (404 or not) unchanged. -/
def getFileContent (raw : Except ApiErr String) : Except GhError String :=
  match raw with
  | .ok s => .ok s
  | .error e => .error (.generic e)

/-- `getWorkflowRuns` (lines 753-773): on a 401/403 without a stored
credential, degrade to an empty response; otherwise re-throw. -/
def getWorkflowRuns (hasAuth : Bool) (raw : Except ApiErr WorkflowRunsResponse) :
    Except GhError WorkflowRunsResponse :=
  match raw with
  | .ok w => .ok w
  | .error e =>
    if (e.status = 401 || e.status = 403) && !hasAuth then
      .ok { workflow_runs := [], total_count := 0 }
    else
      .error (.generic e)

/-- `getPullRequests` (lines 782-806): on a 401/403 without a stored
credential, degrade to an empty list; otherwise re-throw. -/
def getPullRequests (hasAuth : Bool) (raw : Except ApiErr (List PullRequest)) :
    Except GhError (List PullRequest) :=
  match raw with
  | .ok l => .ok l
  | .error e =>
    if (e.status = 401 || e.status = 403) && !hasAuth then
      .ok []
    else
      .error (.generic e)

/-- `getIssues` (lines 815-839): on a 401/403 without a stored credential,
degrade to an empty list; otherwise re-throw. -/
def getIssues (hasAuth : Bool) (raw : Except ApiErr (List Issue)) :
    Except GhError (List Issue) :=
  match raw with
  | .ok l => .ok l
  | .error e =>
    if (e.status = 401 || e.status = 403) && !hasAuth then
      .ok []
    else
      .error (.generic e)

/-- `getReleases` (lines 847-863): re-throws the original error. -/
def getReleases (raw : Except ApiErr (List Release)) : Except GhError (List Release) :=
  match raw with
  | .ok l => .ok l
  | .error e => .error (.generic e)

/-- `getDirectoryContents` (lines 871-887): returns an empty list on any
error; it never throws. -/
def getDirectoryContents (raw : Except ApiErr (List DirectoryItem)) : List DirectoryItem :=
  match raw with
  | .ok l => l
  | .error _ => []

/-- `getCodeFrequencyStats` (lines 894-918): returns an empty list on any
error; it never throws. -/
def getCodeFrequencyStats (raw : Except ApiErr (List (Int × Int × Int))) :
    List (Int × Int × Int) :=
  match raw with
  | .ok l => l
  | .error _ => []

/-! ## Metric estimators (`CodeAnalysisService`, src/unnamed/part_004)

Pure helpers first, then the estimators as functions over the fetched
environment. -/

/-- Per-commit bonus accumulated by `analyzeCommitMessages` (lines 264-281):
length thresholds, conventional-commit pattern, blank-line-separated body. -/
def commitMessageScore (message : String) : ℚ :=
  (if message.length > 10 then 2/10 else 0) +
  (if message.length > 20 then 2/10 else 0) +
  (if message.length > 50 then 2/10 else 0) +
  (if conventionalCommitTest message then 5/10 else 0) +
  (if strIncludes message "\n\n" then 3/10 else 0)

/-- `analyzeCommitMessages` (lines 257-285): default 1/2 on an empty list,
otherwise the accumulated bonuses normalized by commit count, capped at 1. -/
def analyzeCommitMessages (commits : List Commit) : ℚ :=
  if commits.length = 0 then 1/2
  else
    let score := commits.foldl (fun acc commit => acc + commitMessageScore commit.commit.message) 0
    min (score / commits.length) 1

/-- `calculateRepositoryAge` (lines 291-296): age in days,
`Math.ceil(|now - created| / 86400000)`. -/
def calculateRepositoryAge (created_at now : Int) : Int :=
  ⌈(|now - created_at| : ℚ) / 86400000⌉

/-- Issue counts derived from the code-quality score (lines 75-80). -/
structure CodeQualityIssues where
  critical : Int
  high : Int
  medium : Int
  low : Int
deriving DecidableEq

/-- `CodeQuality` result record. -/
structure CodeQuality where
  score : Int
  issues : CodeQualityIssues
  recommendations : List String
deriving DecidableEq

/-- `generateCodeQualityRecommendations` (lines 303-331). -/
def generateCodeQualityRecommendations (issues : CodeQualityIssues) (commits : List Commit) :
    List String :=
  let recommendations : List String := []
  let recommendations := if issues.critical > 0 then
      recommendations ++ ["Address critical security vulnerabilities in your codebase."]
    else recommendations
  let recommendations := if issues.high > 0 then
      recommendations ++ ["Fix high-priority code quality issues to improve maintainability."]
    else recommendations
  let recommendations := if issues.medium > 3 then
      recommendations ++ ["Implement a code quality scanning tool in your CI/CD pipeline."]
    else recommendations
  let recommendations := if analyzeCommitMessages commits < 6/10 then
      recommendations ++ ["Improve commit message quality by adopting conventional commit format."]
    else recommendations
  if recommendations.length < 2 then
    recommendations ++
      ["Implement automated code reviews to catch issues early.",
       "Add code quality gates to your pull request workflow."]
  else recommendations

/-- `analyzeCodeQuality` (lines 60-94), as a function of the fetched commits. -/
def analyzeCodeQuality (commits : List Commit) : CodeQuality :=
  let commitQualityScore := analyzeCommitMessages commits
  let score := min ⌊commitQualityScore * 100⌋ 100
  let issues : CodeQualityIssues :=
    { critical := ⌊(100 - (score : ℚ)) / 25⌋
      high := ⌊(100 - (score : ℚ)) / 20⌋
      medium := ⌊(100 - (score : ℚ)) / 10⌋
      low := ⌊(100 - (score : ℚ)) / 5⌋ }
  { score := score
    issues := issues
    recommendations := generateCodeQualityRecommendations issues commits }

/-- `CodeMetrics` result record. -/
structure CodeMetrics where
  totalLines : Int
  codeLines : Int
  commentLines : Int
  blankLines : Int
  files : Int
  languages : List (String × Nat)
deriving DecidableEq

/-- `analyzeCodeMetrics` (lines 23-53), as a function of the fetched
repository and languages. -/
def analyzeCodeMetrics (repository : Repository) (languages : List (String × Nat)) :
    CodeMetrics :=
  let totalLines : Int := repository.size * 50
  let codeLines := ⌊(totalLines : ℚ) * (75/100)⌋
  let commentLines := ⌊(totalLines : ℚ) * (15/100)⌋
  let blankLines := totalLines - codeLines - commentLines
  let files := ⌊(repository.size : ℚ) / 10⌋
  { totalLines := totalLines
    codeLines := codeLines
    commentLines := commentLines
    blankLines := blankLines
    files := files
    languages := languages }

/-- Language-breakdown lookup with JavaScript truthiness:
`languages.JavaScript` is truthy iff the key is present with a non-zero count. -/
def hasLanguage (languages : List (String × Nat)) (key : String) : Bool :=
  languages.any (fun p => p.1 = key && p.2 ≠ 0)

/-- `calculateComplexityScore` (lines 428-450): blend of commit-message
quality and the fraction of sampled pull requests carrying any comment. -/
def calculateComplexityScore (commits : List Commit) (pullRequests : List PullRequest) : ℚ :=
  let commitQualityScore := analyzeCommitMessages commits
  let reviewScore : ℚ :=
    if pullRequests.length > 0 then
      ((pullRequests.filter (fun pr => pr.review_comments ≠ 0 || pr.comments ≠ 0)).length : ℚ) /
        pullRequests.length
    else 1/2
  let complexity := 1 - (commitQualityScore * (6/10) + reviewScore * (4/10))
  max 0 (min 1 complexity)

/-! The remaining technical-debt helpers fetch for themselves, so they are
functions of the fetched environment. `Env` is the state of the forge during
one report generation: the raw outcome each endpooint would deliver. -/

/-- The raw forge outcomes available to one report generation. Paginated
endpoints take their requested page size / state arguments. -/
structure Env where
  hasAuth : Bool
  repository : Except ApiErr Repository
  commits : Nat → Except ApiErr (List Commit)
  languages : Except ApiErr (List (String × Nat))
  pullRequests : String → Nat → Except ApiErr (List PullRequest)
  issues : String → Nat → Except ApiErr (List Issue)
  workflowRuns : Except ApiErr WorkflowRunsResponse
  releases : Nat → Except ApiErr (List Release)
  directoryContents : String → Except ApiErr (List DirectoryItem)
  fileContent : String → Except ApiErr String

/-- `calculateDuplications` (lines 455-477): age-based estimate, capped at 40,
with 15 substituted when any of its own fetches fails (the surrounding
`try/catch` catches every error kind). -/
def calculateDuplications (env : Env) (now : Int) : ℚ :=
  match getLanguages env.languages, getRepository now env.repository with
  | .ok languages, .ok repository =>
    let repoAgeInMonths := (calculateRepositoryAge repository.created_at now : ℚ) / 30
    let duplicationScore := min repoAgeInMonths 25
    let duplicationScore :=
      if languages.length > 3 then duplicationScore + ((languages.length : ℚ) - 3) * 2
      else duplicationScore
    min duplicationScore 40
  | _, _ => 15

/-- Name patterns scanned by `calculateTestCoverage` (lines 492-496). -/
def testPatterns : List String :=
  ["test", "tests", "__tests__", "spec", "specs", ".github/workflows", "jest.config",
   "vitest.config", "cypress", "playwright", "coverage"]

/-- `calculateTestCoverage` (lines 482-542): scan the root listing, the
`package.json` content and the CI workflow directory for test signals; 25 is
substituted when the languages fetch fails (the directory listings never fail,
and the `package.json` probe is swallowed by its own `catch` whatever the
error). -/
def calculateTestCoverage (env : Env) : ℚ :=
  match getLanguages env.languages with
  | .error _ => 25
  | .ok languages =>
    let rootContents := getDirectoryContents (env.directoryContents "")
    let acc := rootContents.foldl
      (fun (acc : ℚ × Nat) item =>
        let name := strToLower item.name
        if testPatterns.any (fun pattern => strIncludes name pattern) then
          (acc.1 + 15, acc.2 + 1)
        else acc)
      ((0 : ℚ), (0 : Nat))
    let acc :=
      if hasLanguage languages "JavaScript" || hasLanguage languages "TypeScript" then
        match getFileContent (env.fileContent "package.json") with
        | .ok packageJson =>
          if strIncludes packageJson "\"test\"" || strIncludes packageJson "\"jest\"" ||
              strIncludes packageJson "\"vitest\"" || strIncludes packageJson "\"cypress\"" then
            (acc.1 + 20, acc.2 + 1)
          else acc
        | .error _ => acc
      else acc
    let acc :=
      let workflows := getDirectoryContents (env.directoryContents ".github/workflows")
      if workflows.length > 0 then (acc.1 + 10, acc.2 + 1) else acc
    if acc.2 = 0 then 5 else min acc.1 95

/-- The other manifest files probed by `calculateOutdatedDependencies`
(lines 589-602); only the first one found counts. -/
def depFiles : List String :=
  ["Gemfile", "composer.json", "pom.xml", "build.gradle", "Cargo.toml"]

/-- The `for ... break` loop over `depFiles`: the contribution of the first
manifest whose content probe and repository fetch both succeed. A failed probe
falls through to the next file (the repository fetch sits inside the same
`try`, so its failure also falls through). -/
def depFilesContribution (env : Env) (now : Int) : List String → ℚ
  | [] => 0
  | file :: rest =>
    match getFileContent (env.fileContent file), getRepository now env.repository with
    | .ok _, .ok repository =>
      (⌊((calculateRepositoryAge repository.created_at now : ℚ) / 30) / 6⌋ : ℚ)
    | _, _ => depFilesContribution env now rest

/-- `calculateOutdatedDependencies` (lines 547-609), parameterized by
`jsonDependencyCount`: the JavaScript builtin `JSON.parse` composed with
counting the keys of `dependencies` and `devDependencies` (`none` models a
parse failure, which the source catches and skips). Returns the default 2 when
the languages fetch fails (the only await outside an inner `try`). -/
def calculateOutdatedDependencies (env : Env) (jsonDependencyCount : String → Option Nat)
    (now : Int) : ℚ :=
  match getLanguages env.languages with
  | .error _ => 2
  | .ok languages =>
    let outdatedCount : ℚ := 0
    let outdatedCount :=
      if hasLanguage languages "JavaScript" || hasLanguage languages "TypeScript" then
        match getFileContent (env.fileContent "package.json") with
        | .ok packageJson =>
          match jsonDependencyCount packageJson, getRepository now env.repository with
          | some depCount, .ok repository =>
            let repoAgeInMonths := (calculateRepositoryAge repository.created_at now : ℚ) / 30
            outdatedCount + (⌊((depCount : ℚ) / 10) * (repoAgeInMonths / 6)⌋ : ℚ)
          | _, _ => outdatedCount
        | .error _ => outdatedCount
      else outdatedCount
    let outdatedCount :=
      if hasLanguage languages "Python" then
        match getFileContent (env.fileContent "requirements.txt"), getRepository now env.repository with
        | .ok _, .ok repository =>
          let repoAgeInMonths := (calculateRepositoryAge repository.created_at now : ℚ) / 30
          outdatedCount + (⌊repoAgeInMonths / 4⌋ : ℚ)
        | _, _ => outdatedCount
      else outdatedCount
    let outdatedCount := outdatedCount + depFilesContribution env now depFiles
    min outdatedCount 20

/-- Technical-debt sub-metrics as returned (lines 142-147): `complexityScore`
after `toFixed(2)`, `duplications` and `testCoverage` rounded. -/
structure TechnicalDebtMetrics where
  complexityScore : ℚ
  duplications : Int
  testCoverage : Int
  outdatedDependencies : ℚ
deriving DecidableEq

/-- `TechnicalDebt` result record. -/
structure TechnicalDebt where
  score : Int
  metrics : TechnicalDebtMetrics
  recommendations : List String
deriving DecidableEq

/-- `generateTechnicalDebtRecommendations` (lines 337-363), over the raw
(pre-rounding) metrics. -/
def generateTechnicalDebtRecommendations (complexityScore duplications testCoverage
    outdatedDependencies : ℚ) : List String :=
  let recommendations : List String := []
  let recommendations := if complexityScore > 5/10 then
      recommendations ++ ["Refactor complex code modules to improve maintainability."]
    else recommendations
  let recommendations := if duplications > 15 then
      recommendations ++ ["Reduce code duplication by creating reusable components and utilities."]
    else recommendations
  let recommendations := if testCoverage < 60 then
      recommendations ++ ["Increase test coverage to at least 80% for critical code paths."]
    else recommendations
  let recommendations := if outdatedDependencies > 3 then
      recommendations ++ ["Update outdated dependencies to reduce security risks and technical debt."]
    else recommendations
  if recommendations.length < 2 then
    recommendations ++
      ["Implement regular technical debt reviews in your development process.",
       "Set up dependency scanning to identify outdated packages."]
  else recommendations

/-- `analyzeTechnicalDebt` (lines 101-154): fetch, combine the four
sub-metrics, clamp the score into [0, 100]. -/
def analyzeTechnicalDebt (env : Env) (jsonDependencyCount : String → Option Nat)
    (now : Int) : Except GhError TechnicalDebt :=
  match getRepository now env.repository with
  | .error e => .error e
  | .ok _ =>
    match getCommits (env.commits 100) with
    | .error e => .error e
    | .ok commits =>
      match getPullRequests env.hasAuth (env.pullRequests "all" 50) with
      | .error e => .error e
      | .ok pullRequests =>
        match getIssues env.hasAuth (env.issues "all" 100) with
        | .error e => .error e
        | .ok _ =>
          let complexityScore := calculateComplexityScore commits pullRequests
          let duplications := calculateDuplications env now
          let testCoverage := calculateTestCoverage env
          let outdatedDependencies := calculateOutdatedDependencies env jsonDependencyCount now
          let score := ⌊(100 : ℚ) - complexityScore * 25 - duplications * (4/10) -
            (100 - testCoverage) * (25/100) - outdatedDependencies * 3⌋
          .ok
            { score := max 0 (min 100 score)
              metrics :=
                { complexityScore := toFixed2 complexityScore
                  duplications := jsRound duplications
                  testCoverage := jsRound testCoverage
                  outdatedDependencies := outdatedDependencies }
              recommendations := generateTechnicalDebtRecommendations complexityScore
                duplications testCoverage outdatedDependencies }

/-! ## Deployment metrics (src/unnamed/part_004 lines 161-199 and 611-789) -/

/-- `DeploymentMetrics` result record. -/
structure DeploymentMetrics where
  frequency : ℚ
  leadTime : Int
  changeFailureRate : ℚ
  meanTimeToRecover : Int
  score : Int
  recommendations : List String
deriving DecidableEq

/-- The timestamp of the hardcoded literal string 2020-01-01T00:00:00Z passed to
`calculateRepositoryAge` by `calculateDeploymentFrequency` (line 615). -/
def jan2020 : Int := 1577836800000

/-- A workflow run counted as deploy-related and successful (lines 623-628). -/
def isSuccessfulDeployRun (run : WorkflowRun) : Bool :=
  run.conclusion = "success" &&
    (strIncludes (strToLower run.name) "deploy" ||
     strIncludes (strToLower run.name) "release" ||
     strIncludes (strToLower run.name) "production")

/-- `calculateDeploymentFrequency` (lines 614-634). The age denominator is
computed from the hardcoded `2020-01-01` literal, not from the repository. -/
def calculateDeploymentFrequency (releases : List Release)
    (workflowRuns : WorkflowRunsResponse) (now : Int) : ℚ :=
  let repoAgeInWeeks := (calculateRepositoryAge jan2020 now : ℚ) / 7
  if repoAgeInWeeks < 1 then 0
  else
    let releaseFreq := (releases.length : ℚ) / repoAgeInWeeks
    let successfulRuns := workflowRuns.workflow_runs.filter isSuccessfulDeployRun
    let workflowFreq := (successfulRuns.length : ℚ) / repoAgeInWeeks
    max releaseFreq workflowFreq

/-- The sampling loop of `calculateLeadTime` (lines 655-672): for each recent
merged pull request, hours to the first release published after its merge,
keeping positive samples below 30 days. Returns the accumulated
`(totalLeadTime, validSamples)`. -/
def leadTimeSamples (releases : List Release) (now : Int) : List PullRequest → ℚ × Nat
  | [] => (0, 0)
  | pr :: rest =>
    let acc := leadTimeSamples releases now rest
    let mergeDate := pr.merged_at.getD now
    match releases.find? (fun release => release.published_at > mergeDate) with
    | some nextRelease =>
      let leadTimeHours := ((nextRelease.published_at - mergeDate : Int) : ℚ) / 3600000
      if 0 < leadTimeHours ∧ leadTimeHours < 30 * 24 then (acc.1 + leadTimeHours, acc.2 + 1)
      else acc
    | none => acc

/-- The `reduce` in the release-interval fallback of `calculateLeadTime`
(lines 680-685): sum of differences between consecutive entries of the sliced
release list. -/
def consecutiveReleaseGaps : List Release → ℚ
  | r1 :: r2 :: rest =>
    ((r1.published_at - r2.published_at : Int) : ℚ) + consecutiveReleaseGaps (r2 :: rest)
  | _ => 0

/-- `calculateLeadTime` (lines 639-691). -/
def calculateLeadTime (pullRequests : List PullRequest) (releases : List Release)
    (commits : List Commit) (now : Int) : ℚ :=
  if pullRequests.length = 0 ∨ releases.length = 0 then
    if commits.length > 1 then
      let firstCommit := ((commits.getLast?).map (fun c => c.commit.author.date)).getD now
      let lastCommit := ((commits.head?).map (fun c => c.commit.author.date)).getD now
      let avgTimeBetweenCommits := ((lastCommit - firstCommit : Int) : ℚ) / commits.length
      max 1 (avgTimeBetweenCommits / 3600000)
    else 24
  else
    let mergedPRs := (pullRequests.filter (fun pr => pr.merged_at.isSome)).take 10
    let acc := leadTimeSamples releases now mergedPRs
    if acc.2 > 0 then acc.1 / acc.2
    else if releases.length > 1 then
      let avgTimeBetweenReleases :=
        consecutiveReleaseGaps (releases.take 5) / ((releases.length : ℚ) - 1)
      max 1 (avgTimeBetweenReleases / 7200000)
    else 48

/-- Revert markers looked for by the commit fallback of
`calculateChangeFailureRate` (lines 701-705). -/
def isRevertCommit (c : Commit) : Bool :=
  strIncludes (strToLower c.commit.message) "revert" ||
  strIncludes (strToLower c.commit.message) "rollback" ||
  strIncludes (strToLower c.commit.message) "hotfix"

/-- Deployment-related workflow run as counted by `calculateChangeFailureRate`
(lines 711-716): deploy-flavoured name or a `release` trigger event. -/
def isDeploymentRun (run : WorkflowRun) : Bool :=
  strIncludes (strToLower run.name) "deploy" ||
  strIncludes (strToLower run.name) "release" ||
  strIncludes (strToLower run.name) "production" ||
  run.event = "release"

/-- `calculateChangeFailureRate` (lines 696-726). -/
def calculateChangeFailureRate (workflowRuns : WorkflowRunsResponse)
    (commits : List Commit) : ℚ :=
  let runs := workflowRuns.workflow_runs
  if runs.length = 0 then
    let revertCommits := commits.filter isRevertCommit
    if commits.length > 0 then ((revertCommits.length : ℚ) / commits.length) * 100 else 0
  else
    let deploymentRuns := runs.filter isDeploymentRun
    if deploymentRuns.length = 0 then
      let failedRuns := runs.filter (fun run => run.conclusion = "failure")
      ((failedRuns.length : ℚ) / runs.length) * 100
    else
      let failedDeployments := deploymentRuns.filter (fun run => run.conclusion = "failure")
      ((failedDeployments.length : ℚ) / deploymentRuns.length) * 100

/-- Fix markers looked for by `calculateMeanTimeToRecover` (lines 733-740). -/
def isFixCommit (c : Commit) : Bool :=
  strIncludes (strToLower c.commit.message) "fix" ||
  strIncludes (strToLower c.commit.message) "hotfix" ||
  strIncludes (strToLower c.commit.message) "patch" ||
  strIncludes (strToLower c.commit.message) "urgent" ||
  strIncludes (strToLower c.commit.message) "critical"

/-- The consecutive-fix-commit loop of `calculateMeanTimeToRecover`
(lines 750-760): absolute gaps in hours between consecutive fix commits,
keeping those between 1 hour and 7 days. Returns
`(totalRecoveryTime, recoveryInstances)`. -/
def recoveryGaps : List Commit → ℚ × Nat
  | c1 :: c2 :: rest =>
    let acc := recoveryGaps (c2 :: rest)
    let timeDiff := (|c1.commit.author.date - c2.commit.author.date| : ℚ) / 3600000
    if 1 ≤ timeDiff ∧ timeDiff ≤ 168 then (acc.1 + timeDiff, acc.2 + 1) else acc
  | _ => (0, 0)

/-- Bug-fix pull request as sampled by the fallback of
`calculateMeanTimeToRecover` (lines 767-775). -/
def isBugFixPR (pr : PullRequest) : Bool :=
  pr.merged_at.isSome &&
    (strIncludes (strToLower pr.title) "fix" ||
     strIncludes (strToLower pr.title) "bug" ||
     strIncludes (strToLower pr.title) "hotfix" ||
     strIncludes (strToLower pr.title) "patch")

/-- `calculateMeanTimeToRecover` (lines 731-789). -/
def calculateMeanTimeToRecover (commits : List Commit) (pullRequests : List PullRequest)
    (now : Int) : ℚ :=
  let fixCommits := commits.filter isFixCommit
  if fixCommits.length = 0 then 12
  else
    let acc := recoveryGaps fixCommits
    if acc.2 > 0 then acc.1 / acc.2
    else
      let bugFixPRs := pullRequests.filter isBugFixPR
      if bugFixPRs.length > 0 then
        let avgPRTime := (bugFixPRs.foldl
          (fun total pr =>
            total + (((pr.merged_at.getD now) - (pr.created_at.getD now) : Int) : ℚ))
          0) / bugFixPRs.length
        max 1 (avgPRTime / 3600000)
      else 8

/-- `calculateDeploymentScore` (lines 368-387). -/
def calculateDeploymentScore (frequency leadTime changeFailureRate
    meanTimeToRecover : ℚ) : Int :=
  let frequencyScore := min (frequency * 10) 30
  let leadTimeScore := max 0 (30 - leadTime / 2)
  let failureScore := max 0 (25 - changeFailureRate)
  let recoveryScore := max 0 (15 - meanTimeToRecover / 2)
  ⌊frequencyScore + leadTimeScore + failureScore + recoveryScore⌋

/-- `generateDeploymentRecommendations` (lines 392-423), over the raw metrics. -/
def generateDeploymentRecommendations (frequency leadTime changeFailureRate
    meanTimeToRecover : ℚ) : List String :=
  let recommendations : List String := []
  let recommendations := if frequency < 1 then
      recommendations ++
        ["Increase deployment frequency by implementing continuous delivery practices."]
    else recommendations
  let recommendations := if leadTime > 24 then
      recommendations ++
        ["Reduce lead time by streamlining your CI/CD pipeline and approval processes."]
    else recommendations
  let recommendations := if changeFailureRate > 10 then
      recommendations ++
        ["Reduce change failure rate by implementing more comprehensive pre-deployment testing."]
    else recommendations
  let recommendations := if meanTimeToRecover > 12 then
      recommendations ++
        ["Improve mean time to recovery by implementing automated rollback mechanisms."]
    else recommendations
  if recommendations.length < 2 then
    recommendations ++
      ["Implement feature flags to safely deploy and test new features.",
       "Adopt infrastructure as code to make deployments more reliable."]
  else recommendations

/-- `analyzeDeploymentMetrics` (lines 161-199). -/
def analyzeDeploymentMetrics (env : Env) (now : Int) : Except GhError DeploymentMetrics :=
  match getWorkflowRuns env.hasAuth env.workflowRuns with
  | .error e => .error e
  | .ok workflowRuns =>
    match getReleases (env.releases 50) with
    | .error e => .error e
    | .ok releases =>
      match getPullRequests env.hasAuth (env.pullRequests "closed" 50) with
      | .error e => .error e
      | .ok pullRequests =>
        match getCommits (env.commits 100) with
        | .error e => .error e
        | .ok commits =>
          let frequency := calculateDeploymentFrequency releases workflowRuns now
          let leadTime := calculateLeadTime pullRequests releases commits now
          let changeFailureRate := calculateChangeFailureRate workflowRuns commits
          let meanTimeToRecover := calculateMeanTimeToRecover commits pullRequests now
          let score := calculateDeploymentScore frequency leadTime changeFailureRate
            meanTimeToRecover
          .ok
            { frequency := toFixed2 frequency
              leadTime := jsRound leadTime
              changeFailureRate := (jsRound (changeFailureRate * 100) : ℚ) / 100
              meanTimeToRecover := jsRound meanTimeToRecover
              score := score
              recommendations := generateDeploymentRecommendations frequency leadTime
                changeFailureRate meanTimeToRecover }

/-! ## Report aggregation (src/unnamed/part_004 lines 206-248) -/

/-- The full `HealthReport` value returned by `generateHealthReport`. -/
structure HealthReport where
  repository : Repository
  codeMetrics : CodeMetrics
  codeQuality : CodeQuality
  technicalDebt : TechnicalDebt
  deploymentMetrics : DeploymentMetrics
  overallScore : Int
  benchmarkScore : Int
  generatedAt : Int
deriving DecidableEq

/-- `analyzeCodeMetrics` with its own fetches (lines 23-53). -/
def analyzeCodeMetricsFetched (env : Env) (now : Int) : Except GhError CodeMetrics :=
  match getLanguages env.languages with
  | .error e => .error e
  | .ok languages =>
    match getRepository now env.repository with
    | .error e => .error e
    | .ok repository => .ok (analyzeCodeMetrics repository languages)

/-- `analyzeCodeQuality` with its own fetch (lines 60-94; `getCommits` with
the default page size 30). -/
def analyzeCodeQualityFetched (env : Env) : Except GhError CodeQuality :=
  match getCommits (env.commits 30) with
  | .error e => .error e
  | .ok commits => .ok (analyzeCodeQuality commits)

/-- `generateHealthReport` (lines 206-248). `rand` is the `Math.random()` draw
behind the benchmark score; `now` the wall-clock reading. -/
def generateHealthReport (env : Env) (jsonDependencyCount : String → Option Nat)
    (now : Int) (rand : ℚ) : Except GhError HealthReport :=
  match getRepository now env.repository with
  | .error e => .error e
  | .ok repository =>
    match analyzeCodeMetricsFetched env now with
    | .error e => .error e
    | .ok codeMetrics =>
      match analyzeCodeQualityFetched env with
      | .error e => .error e
      | .ok codeQuality =>
        match analyzeTechnicalDebt env jsonDependencyCount now with
        | .error e => .error e
        | .ok technicalDebt =>
          match analyzeDeploymentMetrics env now with
          | .error e => .error e
          | .ok deploymentMetrics =>
            let overallScore := ⌊(codeQuality.score : ℚ) * (3/10) +
              (technicalDebt.score : ℚ) * (4/10) + (deploymentMetrics.score : ℚ) * (3/10)⌋
            let benchmarkScore := ⌊rand * 30⌋ + 50
            .ok
              { repository := repository
                codeMetrics := codeMetrics
                codeQuality := codeQuality
                technicalDebt := technicalDebt
                deploymentMetrics := deploymentMetrics
                overallScore := overallScore
                benchmarkScore := benchmarkScore
                generatedAt := now }

/-! ## The older `CodeAnalysisService` variant
(src/app/services/code-analysis-service.ts, the module `page.tsx` imports).
Its `analyzeTechnicalDebt` (lines 101-154) shares `analyzeCommitMessages`,
`calculateRepositoryAge` and `generateTechnicalDebtRecommendations` with the
variant above, but draws `testCoverage` and `outdatedDependencies` from
`Math.random()` and does not cap the score at 100. -/

/-- `analyzeTechnicalDebt` of the imported service variant, as a function of
the fetched repository and commits and of the two `Math.random()` draws
(`rand1` for `testCoverage`, `rand2` for `outdatedDependencies`). -/
def analyzeTechnicalDebtRandom (repository : Repository) (commits : List Commit)
    (now : Int) (rand1 rand2 : ℚ) : TechnicalDebt :=
  let complexityScore := 1 - analyzeCommitMessages commits
  let repoAgeInDays := calculateRepositoryAge repository.created_at now
  let duplications : Int := min (⌊(repoAgeInDays : ℚ) / 30⌋ * 5) 40
  let testCoverage : Int := ⌊rand1 * 60⌋ + 20
  let outdatedDependencies : Int := ⌊rand2 * 8⌋
  let score := ⌊(100 : ℚ) - complexityScore * 30 - (duplications : ℚ) * (5/10) -
    (100 - (testCoverage : ℚ)) * (3/10) - (outdatedDependencies : ℚ) * 5⌋
  { score := max 0 score
    metrics :=
      { complexityScore := toFixed2 complexityScore
        duplications := duplications
        testCoverage := testCoverage
        outdatedDependencies := (outdatedDependencies : ℚ) }
    recommendations := generateTechnicalDebtRecommendations complexityScore
      (duplications : ℚ) (testCoverage : ℚ) (outdatedDependencies : ℚ) }

/-! ## Concrete inputs used by the closed theorems below -/

/-- `true` exactly when the service call produced a value. -/
def exceptIsOk {ε α : Type} : Except ε α → Bool
  | .ok _ => true
  | .error _ => false

/-- A 403 outcome whose body reports rate-limit exhaustion, with the usual
rate-limit headers present. -/
def rateLimited403 : ApiErr :=
  { status := 403
    message := "API rate limit exceeded for 203.0.113.8."
    responseDataMessage := some "API rate limit exceeded for 203.0.113.8."
    ratelimitReset := some 1767229200
    ratelimitLimit := some 60
    ratelimitRemaining := some 0 }

/-- A 401 refusal as returned to an unauthenticated client. -/
def err401 : ApiErr :=
  { status := 401
    message := "Requires authentication"
    responseDataMessage := none
    ratelimitReset := none
    ratelimitLimit := none
    ratelimitRemaining := none }

/-- A plain transport failure: HTTP 500, clearly not a NotFound probe outcome
and not an authorization refusal. -/
def err500 : ApiErr :=
  { status := 500
    message := "Internal Server Error"
    responseDataMessage := none
    ratelimitReset := none
    ratelimitLimit := none
    ratelimitRemaining := none }

/-- A JavaScript repository created on 2024-01-01, 200 KB. -/
def demoRepository : Repository :=
  { id := 1
    name := "demo"
    full_name := "acme/demo"
    owner_login := "acme"
    html_url := ""
    description := ""
    created_at := 1704067200000
    updated_at := 1767225600000
    pushed_at := 1767225600000
    size := 200
    language := "JavaScript"
    default_branch := "main" }

/-- A repository created exactly at the `now` used in the determinism
counterexample (age 0 days). -/
def freshRepository : Repository :=
  { demoRepository with created_at := 1767225600000, size := 0, language := "TypeScript" }

/-- An environment in which every fetch succeeds except the file-content
probes, which all fail with the transport error `err500`. -/
def envProbeFailure : Env :=
  { hasAuth := true
    repository := .ok demoRepository
    commits := fun _ => .ok []
    languages := .ok [("JavaScript", 12345)]
    pullRequests := fun _ _ => .ok []
    issues := fun _ _ => .ok []
    workflowRuns := .ok { workflow_runs := [], total_count := 0 }
    releases := fun _ => .ok []
    directoryContents := fun _ => .ok []
    fileContent := fun _ => .error err500 }

/-- `envProbeFailure` with the repository endpoint itself failing. -/
def envRepositoryDown : Env :=
  { envProbeFailure with repository := .error err500 }

/-- `envProbeFailure` with the languages endpoint failing. -/
def envLanguagesDown : Env :=
  { envProbeFailure with languages := .error err500 }

/-- `envProbeFailure` with the workflow-runs endpoint failing. -/
def envWorkflowRunsDown : Env :=
  { envProbeFailure with workflowRuns := .error err500 }

/-- A conventional-commit message longer than 50 characters, on a commit. -/
def goodCommit : Commit :=
  { sha := "a1b2c3"
    commit :=
      { author := { name := "Dev", email := "dev@example.test", date := 1704067200000 }
        message := "feat(core): add incremental support for very large repository scans" }
    html_url := "" }

/-- One release, published 2025-01-01. -/
def demoRelease : Release := { tag_name := "v1.0.0", published_at := 1735689600000 }

/-! ## Supporting lemmas -/

theorem foldl_add_eq_sum (g : Commit → ℚ) :
    ∀ (l : List Commit) (a : ℚ), l.foldl (fun acc c => acc + g c) a = a + (l.map g).sum
  | [], a => by simp
  | c :: t, a => by
    simp only [List.foldl_cons, List.map_cons, List.sum_cons]
    rw [foldl_add_eq_sum g t]
    ring

theorem sum_map_nonneg (g : Commit → ℚ) (hg : ∀ c, 0 ≤ g c) :
    ∀ l : List Commit, 0 ≤ (l.map g).sum
  | [] => by simp
  | c :: t => by
    simp only [List.map_cons, List.sum_cons]
    exact add_nonneg (hg c) (sum_map_nonneg g hg t)

theorem sum_map_lower_bound (g : Commit → ℚ) (q : ℚ) :
    ∀ l : List Commit, (∀ c ∈ l, q ≤ g c) → q * l.length ≤ (l.map g).sum
  | [], _ => by simp
  | c :: t, h => by
    simp only [List.map_cons, List.sum_cons, List.length_cons]
    have ht := sum_map_lower_bound g q t (fun x hx => h x (List.mem_cons_of_mem c hx))
    have hc := h c (List.mem_cons_self c t)
    push_cast
    linarith

theorem sum_map_zero (g : Commit → ℚ) :
    ∀ l : List Commit, (∀ c ∈ l, g c = 0) → (l.map g).sum = 0
  | [], _ => by simp
  | c :: t, h => by
    simp only [List.map_cons, List.sum_cons]
    rw [h c (List.mem_cons_self c t), sum_map_zero g t (fun x hx => h x (List.mem_cons_of_mem c hx))]
    norm_num

theorem commitMessageScore_nonneg (m : String) : 0 ≤ commitMessageScore m := by
  unfold commitMessageScore
  split_ifs <;> norm_num

theorem commitMessageScore_empty : commitMessageScore "" = 0 := by
  have h1 : conventionalCommitTest "" = false := by decide
  have h2 : strIncludes "" "\n\n" = false := by decide
  simp [commitMessageScore, h1, h2]

theorem commitMessageScore_conventional_long (m : String)
    (hconv : conventionalCommitTest m = true) (hlen : m.length > 50) :
    11/10 ≤ commitMessageScore m := by
  have h10 : m.length > 10 := by omega
  have h20 : m.length > 20 := by omega
  unfold commitMessageScore
  rw [if_pos h10, if_pos h20, if_pos hlen, if_pos hconv]
  split_ifs <;> norm_num

theorem analyzeCommitMessages_nonneg (commits : List Commit) :
    0 ≤ analyzeCommitMessages commits := by
  unfold analyzeCommitMessages
  split
  · norm_num
  · refine le_min (div_nonneg ?_ (by positivity)) (by norm_num)
    rw [foldl_add_eq_sum]
    simpa using sum_map_nonneg _ (fun c => commitMessageScore_nonneg c.commit.message) commits

theorem analyzeCommitMessages_le_one (commits : List Commit) :
    analyzeCommitMessages commits ≤ 1 := by
  unfold analyzeCommitMessages
  split
  · norm_num
  · exact min_le_right _ _

theorem analyzeCodeQuality_score_bounds (commits : List Commit) :
    0 ≤ (analyzeCodeQuality commits).score ∧ (analyzeCodeQuality commits).score ≤ 100 := by
  unfold analyzeCodeQuality
  refine ⟨le_min ?_ (by norm_num), min_le_right _ _⟩
  have h := analyzeCommitMessages_nonneg commits
  exact Int.le_floor.mpr (by push_cast; positivity)


theorem leadTimeSamples_fst_nonneg (releases : List Release) (now : Int) :
    ∀ prs : List PullRequest, 0 ≤ (leadTimeSamples releases now prs).1 := by
  intro prs
  induction prs with
  | nil => exact le_refl 0
  | cons pr rest ih =>
    simp only [leadTimeSamples]
    split
    · split
      · rename_i hcond
        exact add_nonneg ih (le_of_lt hcond.1)
      · exact ih
    · exact ih

theorem calculateLeadTime_nonneg (pullRequests : List PullRequest) (releases : List Release)
    (commits : List Commit) (now : Int) :
    0 ≤ calculateLeadTime pullRequests releases commits now := by
  simp only [calculateLeadTime]
  split
  · split
    · exact le_trans zero_le_one (le_max_left _ _)
    · norm_num
  · split
    · exact div_nonneg (leadTimeSamples_fst_nonneg releases now _) (by positivity)
    · split
      · exact le_trans zero_le_one (le_max_left _ _)
      · norm_num

theorem calculateDeploymentFrequency_nonneg (releases : List Release)
    (workflowRuns : WorkflowRunsResponse) (now : Int) :
    0 ≤ calculateDeploymentFrequency releases workflowRuns now := by
  simp only [calculateDeploymentFrequency]
  split
  · norm_num
  · rename_i h
    have hw : (0 : ℚ) ≤ (calculateRepositoryAge jan2020 now : ℚ) / 7 := by
      linarith [not_lt.mp h]
    exact le_max_of_le_left (div_nonneg (by positivity) hw)

theorem calculateChangeFailureRate_nonneg (workflowRuns : WorkflowRunsResponse)
    (commits : List Commit) :
    0 ≤ calculateChangeFailureRate workflowRuns commits := by
  simp only [calculateChangeFailureRate]
  split
  · split
    · exact mul_nonneg (div_nonneg (by positivity) (by positivity)) (by norm_num)
    · norm_num
  · split
    · exact mul_nonneg (div_nonneg (by positivity) (by positivity)) (by norm_num)
    · exact mul_nonneg (div_nonneg (by positivity) (by positivity)) (by norm_num)

theorem recoveryGaps_fst_nonneg : ∀ commits : List Commit, 0 ≤ (recoveryGaps commits).1 := by
  intro commits
  induction commits with
  | nil => exact le_refl 0
  | cons c1 rest ih =>
    cases rest with
    | nil => exact le_refl 0
    | cons c2 rest2 =>
      simp only [recoveryGaps]
      split
      · rename_i hcond
        exact add_nonneg ih (le_trans zero_le_one hcond.1)
      · exact ih

theorem calculateMeanTimeToRecover_nonneg (commits : List Commit)
    (pullRequests : List PullRequest) (now : Int) :
    0 ≤ calculateMeanTimeToRecover commits pullRequests now := by
  simp only [calculateMeanTimeToRecover]
  split
  · norm_num
  · split
    · exact div_nonneg (recoveryGaps_fst_nonneg _) (by positivity)
    · split
      · exact le_trans zero_le_one (le_max_left _ _)
      · norm_num

theorem calculateDeploymentScore_bounds (frequency leadTime changeFailureRate
    meanTimeToRecover : ℚ) (hf : 0 ≤ frequency) (hl : 0 ≤ leadTime)
    (hc : 0 ≤ changeFailureRate) (hm : 0 ≤ meanTimeToRecover) :
    0 ≤ calculateDeploymentScore frequency leadTime changeFailureRate meanTimeToRecover ∧
      calculateDeploymentScore frequency leadTime changeFailureRate meanTimeToRecover ≤ 100 := by
  simp only [calculateDeploymentScore]
  have h1 : 0 ≤ min (frequency * 10) 30 := le_min (by positivity) (by norm_num)
  have h1' : min (frequency * 10) 30 ≤ 30 := min_le_right _ _
  have h2 : (0 : ℚ) ≤ max 0 (30 - leadTime / 2) := le_max_left _ _
  have h2' : max 0 (30 - leadTime / 2) ≤ 30 := max_le (by norm_num) (by linarith)
  have h3 : (0 : ℚ) ≤ max 0 (25 - changeFailureRate) := le_max_left _ _
  have h3' : max 0 (25 - changeFailureRate) ≤ 25 := max_le (by norm_num) (by linarith)
  have h4 : (0 : ℚ) ≤ max 0 (15 - meanTimeToRecover / 2) := le_max_left _ _
  have h4' : max 0 (15 - meanTimeToRecover / 2) ≤ 15 := max_le (by norm_num) (by linarith)
  constructor
  · exact Int.le_floor.mpr (by push_cast; linarith)
  · calc ⌊min (frequency * 10) 30 + max 0 (30 - leadTime / 2) + max 0 (25 - changeFailureRate) +
        max 0 (15 - meanTimeToRecover / 2)⌋ ≤ ⌊(100 : ℚ)⌋ :=
          Int.floor_le_floor (by linarith)
    _ = 100 := by norm_num

theorem analyzeDeploymentMetrics_score_bounds (env : Env) (now : Int) :
    match analyzeDeploymentMetrics env now with
    | .ok d => 0 ≤ d.score ∧ d.score ≤ 100
    | .error _ => True := by
  unfold analyzeDeploymentMetrics
  cases getWorkflowRuns env.hasAuth env.workflowRuns with
  | error e => simp
  | ok workflowRuns =>
    cases getReleases (env.releases 50) with
    | error e => simp
    | ok releases =>
      cases getPullRequests env.hasAuth (env.pullRequests "closed" 50) with
      | error e => simp
      | ok pullRequests =>
        cases getCommits (env.commits 100) with
        | error e => simp
        | ok commits =>
          simp only
          exact calculateDeploymentScore_bounds _ _ _ _
            (calculateDeploymentFrequency_nonneg releases workflowRuns now)
            (calculateLeadTime_nonneg pullRequests releases commits now)
            (calculateChangeFailureRate_nonneg workflowRuns commits)
            (calculateMeanTimeToRecover_nonneg commits pullRequests now)

theorem analyzeTechnicalDebt_score_bounds (env : Env)
    (jsonDependencyCount : String → Option Nat) (now : Int) :
    match analyzeTechnicalDebt env jsonDependencyCount now with
    | .ok t => 0 ≤ t.score ∧ t.score ≤ 100
    | .error _ => True := by
  unfold analyzeTechnicalDebt
  cases getRepository now env.repository with
  | error e => simp
  | ok repository =>
    cases getCommits (env.commits 100) with
    | error e => simp
    | ok commits =>
      cases getPullRequests env.hasAuth (env.pullRequests "all" 50) with
      | error e => simp
      | ok pullRequests =>
        cases getIssues env.hasAuth (env.issues "all" 100) with
        | error e => simp
        | ok issues =>
          simp only
          exact ⟨le_max_left _ _, max_le (by norm_num) (min_le_left _ _)⟩

theorem analyzeCodeQualityFetched_score_bounds (env : Env) :
    match analyzeCodeQualityFetched env with
    | .ok q => 0 ≤ q.score ∧ q.score ≤ 100
    | .error _ => True := by
  unfold analyzeCodeQualityFetched
  cases getCommits (env.commits 30) with
  | error e => simp
  | ok commits =>
    simp only
    exact analyzeCodeQuality_score_bounds commits

theorem overall_floor_bounds (q t d : Int) (hq0 : 0 ≤ q) (hq1 : q ≤ 100)
    (ht0 : 0 ≤ t) (ht1 : t ≤ 100) (hd0 : 0 ≤ d) (hd1 : d ≤ 100) :
    0 ≤ ⌊(q : ℚ) * (3/10) + (t : ℚ) * (4/10) + (d : ℚ) * (3/10)⌋ ∧
      ⌊(q : ℚ) * (3/10) + (t : ℚ) * (4/10) + (d : ℚ) * (3/10)⌋ ≤ 100 := by
  have hq0' : (0 : ℚ) ≤ (q : ℚ) := by exact_mod_cast hq0
  have hq1' : (q : ℚ) ≤ 100 := by exact_mod_cast hq1
  have ht0' : (0 : ℚ) ≤ (t : ℚ) := by exact_mod_cast ht0
  have ht1' : (t : ℚ) ≤ 100 := by exact_mod_cast ht1
  have hd0' : (0 : ℚ) ≤ (d : ℚ) := by exact_mod_cast hd0
  have hd1' : (d : ℚ) ≤ 100 := by exact_mod_cast hd1
  constructor
  · exact Int.le_floor.mpr (by push_cast; linarith)
  · calc ⌊(q : ℚ) * (3/10) + (t : ℚ) * (4/10) + (d : ℚ) * (3/10)⌋ ≤ ⌊(100 : ℚ)⌋ :=
        Int.floor_le_floor (by linarith)
    _ = 100 := by norm_num

/-! ## Claims -/

/-- C3: for every fetched environment, JSON-parse behaviour, clock reading
and benchmark draw, whenever `generateHealthReport` produces a report, the
code-quality, technical-debt and deployment scores and the overall score are
integers within [0, 100]. -/
theorem health_report_scores_within_range (env : Env)
    (jsonDependencyCount : String → Option Nat) (now : Int) (rand : ℚ) :
    match generateHealthReport env jsonDependencyCount now rand with
    | .ok r =>
      (0 ≤ r.codeQuality.score ∧ r.codeQuality.score ≤ 100) ∧
      (0 ≤ r.technicalDebt.score ∧ r.technicalDebt.score ≤ 100) ∧
      (0 ≤ r.deploymentMetrics.score ∧ r.deploymentMetrics.score ≤ 100) ∧
      (0 ≤ r.overallScore ∧ r.overallScore ≤ 100)
    | .error _ => True := by
  unfold generateHealthReport
  cases getRepository now env.repository with
  | error e => simp
  | ok repository =>
    cases hcm : analyzeCodeMetricsFetched env now with
    | error e => simp
    | ok codeMetrics =>
      cases hq : analyzeCodeQualityFetched env with
      | error e => simp
      | ok codeQuality =>
        cases htd : analyzeTechnicalDebt env jsonDependencyCount now with
        | error e => simp
        | ok technicalDebt =>
          cases hdm : analyzeDeploymentMetrics env now with
          | error e => simp
          | ok deploymentMetrics =>
            have hQ := analyzeCodeQualityFetched_score_bounds env
            rw [hq] at hQ
            have hT := analyzeTechnicalDebt_score_bounds env jsonDependencyCount now
            rw [htd] at hT
            have hD := analyzeDeploymentMetrics_score_bounds env now
            rw [hdm] at hD
            simp only at hQ hT hD ⊢
            obtain ⟨hq0, hq1⟩ := hQ
            obtain ⟨ht0, ht1⟩ := hT
            obtain ⟨hd0, hd1⟩ := hD
            exact ⟨⟨hq0, hq1⟩, ⟨ht0, ht1⟩, ⟨hd0, hd1⟩,
              overall_floor_bounds _ _ _ hq0 hq1 ht0 ht1 hd0 hd1⟩

/-- C6: for every fetched repository and language breakdown,
`analyzeCodeMetrics` estimates `totalLines = size * 50`,
`codeLines = floor(0.75 * totalLines)`, `commentLines = floor(0.15 * totalLines)`,
`files = floor(size / 10)`, and the code, comment and blank lines sum exactly
to `totalLines` (the blank component being defined as the remainder). -/
theorem code_metrics_formulas_and_line_sum (repository : Repository)
    (languages : List (String × Nat)) :
    (analyzeCodeMetrics repository languages).totalLines = repository.size * 50 ∧
    (analyzeCodeMetrics repository languages).codeLines =
      ⌊(75 / 100 : ℚ) * ((repository.size : ℚ) * 50)⌋ ∧
    (analyzeCodeMetrics repository languages).commentLines =
      ⌊(15 / 100 : ℚ) * ((repository.size : ℚ) * 50)⌋ ∧
    (analyzeCodeMetrics repository languages).files = ⌊(repository.size : ℚ) / 10⌋ ∧
    (analyzeCodeMetrics repository languages).codeLines +
        (analyzeCodeMetrics repository languages).commentLines +
        (analyzeCodeMetrics repository languages).blankLines =
      (analyzeCodeMetrics repository languages).totalLines := by
  refine ⟨rfl, ?_, ?_, rfl, ?_⟩
  · simp only [analyzeCodeMetrics]
    congr 1
    push_cast
    ring
  · simp only [analyzeCodeMetrics]
    congr 1
    push_cast
    ring
  · simp only [analyzeCodeMetrics]
    ring

/-- C9: when the commit fetch yields an empty list, `analyzeCommitMessages`
returns the default 1/2, and `analyzeCodeQuality` consequently reports score
50 with issue counts critical 2, high 2, medium 5, low 10 (the floors of
50/25, 50/20, 50/10, 50/5). -/
theorem empty_commit_list_quality_defaults :
    analyzeCommitMessages [] = 1/2 ∧
    (analyzeCodeQuality []).score = 50 ∧
    (analyzeCodeQuality []).issues.critical = 2 ∧
    (analyzeCodeQuality []).issues.high = 2 ∧
    (analyzeCodeQuality []).issues.medium = 5 ∧
    (analyzeCodeQuality []).issues.low = 10 := by
  have h : analyzeCommitMessages [] = 1/2 := by simp [analyzeCommitMessages]
  have hscore : (analyzeCodeQuality []).score = 50 := by
    simp only [analyzeCodeQuality, h]
    norm_num
  refine ⟨h, hscore, ?_, ?_, ?_, ?_⟩ <;>
    · simp only [analyzeCodeQuality, h]
      norm_num

theorem length_pad_two (l : List String) (a b : String) :
    2 ≤ (if l.length < 2 then l ++ [a, b] else l).length := by
  split
  · simp
  · rename_i h
    omega

/-- C10: each of the three recommendation generators returns at least two
entries for every input, because two generic recommendations are appended
whenever fewer than two threshold rules fired. -/
theorem recommendation_lists_have_at_least_two_entries (issues : CodeQualityIssues)
    (commits : List Commit) (complexityScore duplications testCoverage
    outdatedDependencies frequency leadTime changeFailureRate meanTimeToRecover : ℚ) :
    2 ≤ (generateCodeQualityRecommendations issues commits).length ∧
    2 ≤ (generateTechnicalDebtRecommendations complexityScore duplications testCoverage
          outdatedDependencies).length ∧
    2 ≤ (generateDeploymentRecommendations frequency leadTime changeFailureRate
          meanTimeToRecover).length := by
  refine ⟨?_, ?_, ?_⟩
  · simp only [generateCodeQualityRecommendations]
    exact length_pad_two _ _ _
  · simp only [generateTechnicalDebtRecommendations]
    exact length_pad_two _ _ _
  · simp only [generateDeploymentRecommendations]
    exact length_pad_two _ _ _

/-- C2: a 401/403 refusal on the privilege-gated endpoints (workflow runs,
pull requests, issues) degrades to an empty result when the client was built
without a credential, and surfaces as a hard (generic) error when a
credential was supplied. -/
theorem unauthenticated_gated_endpoints_degrade (e : ApiErr)
    (h : e.status = 401 ∨ e.status = 403) :
    getWorkflowRuns false (.error e) = .ok { workflow_runs := [], total_count := 0 } ∧
    getPullRequests false (.error e) = .ok [] ∧
    getIssues false (.error e) = .ok [] ∧
    getWorkflowRuns true (.error e) = .error (.generic e) ∧
    getPullRequests true (.error e) = .error (.generic e) ∧
    getIssues true (.error e) = .error (.generic e) := by
  have hcond : (decide (e.status = 401) || decide (e.status = 403)) = true := by
    rcases h with h | h <;> simp [h]
  simp [getWorkflowRuns, getPullRequests, getIssues, hcond]

/-- C2 witness: the degradation and the hard-error behaviour at the concrete
401 refusal `err401`. -/
theorem unauthenticated_gated_endpoints_degrade_witness :
    getWorkflowRuns false (.error err401) = .ok { workflow_runs := [], total_count := 0 } ∧
    getPullRequests false (.error err401) = .ok [] ∧
    getIssues false (.error err401) = .ok [] ∧
    getWorkflowRuns true (.error err401) = .error (.generic err401) ∧
    getPullRequests true (.error err401) = .error (.generic err401) ∧
    getIssues true (.error err401) = .error (.generic err401) :=
  unauthenticated_gated_endpoints_degrade err401 (Or.inl rfl)

/-- C1 counterexample: a 403 outcome whose body reports rate-limit exhaustion
(`rateLimited403` satisfies the detection condition), surfaced through
`getCommits`, reaches the caller as the generic error, not as the
distinguished `GitHubRateLimitError`. -/
theorem rateLimit_not_distinguished_for_getCommits :
    isRateLimitErr rateLimited403 = true ∧
    getCommits (.error rateLimited403) = .error (.generic rateLimited403) ∧
    surfacesRateLimit (getCommits (.error rateLimited403)) = false :=
  ⟨by decide, rfl, rfl⟩

/-- C1 amended: only `getRepository` converts a 403 rate-limit outcome into
the distinguished `GitHubRateLimitError` (with the extracted reset time,
limit and remaining); `getCommits`, `getLanguages`, `getContributors`,
`getFileContent` and `getReleases` re-throw it as the generic error; the
privilege-gated operations re-throw it generically when a credential was
supplied and otherwise degrade it to an empty result; `getDirectoryContents`
and `getCodeFrequencyStats` swallow it into an empty list. -/
theorem rateLimit_surfacing_by_operation (now : Int) (e : ApiErr)
    (h : isRateLimitErr e = true) :
    getRepository now (.error e) = .error (checkRateLimitError now e) ∧
    (checkRateLimitError now e).isRateLimitError = true ∧
    getCommits (.error e) = .error (.generic e) ∧
    getLanguages (.error e) = .error (.generic e) ∧
    getContributors (.error e) = .error (.generic e) ∧
    getFileContent (.error e) = .error (.generic e) ∧
    getReleases (.error e) = .error (.generic e) ∧
    getWorkflowRuns true (.error e) = .error (.generic e) ∧
    getPullRequests true (.error e) = .error (.generic e) ∧
    getIssues true (.error e) = .error (.generic e) ∧
    getWorkflowRuns false (.error e) = .ok { workflow_runs := [], total_count := 0 } ∧
    getPullRequests false (.error e) = .ok [] ∧
    getIssues false (.error e) = .ok [] ∧
    getDirectoryContents (.error e) = [] ∧
    getCodeFrequencyStats (.error e) = [] := by
  have h403 : e.status = 403 := by
    simp only [isRateLimitErr, Bool.and_eq_true, decide_eq_true_eq] at h
    exact h.1
  have hcond : (decide (e.status = 401) || decide (e.status = 403)) = true := by
    simp [h403]
  have hrl : (checkRateLimitError now e).isRateLimitError = true := by
    unfold checkRateLimitError
    rw [if_pos h]
    rfl
  refine ⟨rfl, hrl, rfl, rfl, rfl, rfl, rfl, ?_, ?_, ?_, ?_, ?_, ?_, rfl, rfl⟩ <;>
    simp [getWorkflowRuns, getPullRequests, getIssues, hcond]

/-- C1 witness: the amended surfacing behaviour at the concrete rate-limited
403 outcome `rateLimited403`. -/
theorem rateLimit_surfacing_by_operation_witness :
    getRepository 1767225600000 (.error rateLimited403) =
      .error (checkRateLimitError 1767225600000 rateLimited403) ∧
    (checkRateLimitError 1767225600000 rateLimited403).isRateLimitError = true ∧
    getCommits (.error rateLimited403) = .error (.generic rateLimited403) ∧
    getLanguages (.error rateLimited403) = .error (.generic rateLimited403) ∧
    getContributors (.error rateLimited403) = .error (.generic rateLimited403) ∧
    getFileContent (.error rateLimited403) = .error (.generic rateLimited403) ∧
    getReleases (.error rateLimited403) = .error (.generic rateLimited403) ∧
    getWorkflowRuns true (.error rateLimited403) = .error (.generic rateLimited403) ∧
    getPullRequests true (.error rateLimited403) = .error (.generic rateLimited403) ∧
    getIssues true (.error rateLimited403) = .error (.generic rateLimited403) ∧
    getWorkflowRuns false (.error rateLimited403) =
      .ok { workflow_runs := [], total_count := 0 } ∧
    getPullRequests false (.error rateLimited403) = .ok [] ∧
    getIssues false (.error rateLimited403) = .ok [] ∧
    getDirectoryContents (.error rateLimited403) = [] ∧
    getCodeFrequencyStats (.error rateLimited403) = [] :=
  rateLimit_surfacing_by_operation 1767225600000 rateLimited403 (by decide)

/-- C8: a non-empty commit list whose messages all match the
conventional-commit pattern and exceed 50 characters scores strictly higher
under `analyzeCommitMessages` than the otherwise-identical list with empty
messages. -/
theorem conventional_long_messages_score_strictly_higher (commits : List Commit)
    (hne : commits ≠ [])
    (hgood : ∀ c ∈ commits, conventionalCommitTest c.commit.message = true ∧
      c.commit.message.length > 50) :
    analyzeCommitMessages
        (commits.map (fun c => { c with commit := { c.commit with message := "" } })) <
      analyzeCommitMessages commits := by
  have hlen : commits.length ≠ 0 := fun h => hne (List.length_eq_zero.mp h)
  have hlenpos : (0 : ℚ) < (commits.length : ℚ) := by
    have : 0 < commits.length := Nat.pos_of_ne_zero hlen
    exact_mod_cast this
  -- the degraded list evaluates to 0
  have hErased : analyzeCommitMessages
      (commits.map (fun c => { c with commit := { c.commit with message := "" } })) = 0 := by
    unfold analyzeCommitMessages
    rw [if_neg (by simpa using hlen)]
    rw [foldl_add_eq_sum]
    rw [sum_map_zero _ _ (by
      intro c hc
      obtain ⟨c0, _, rfl⟩ := List.mem_map.mp hc
      exact commitMessageScore_empty)]
    simp
  -- the original list evaluates to 1
  have hFull : analyzeCommitMessages commits = 1 := by
    unfold analyzeCommitMessages
    rw [if_neg hlen, foldl_add_eq_sum, zero_add]
    have hsum : (11/10 : ℚ) * commits.length ≤
        (commits.map (fun c => commitMessageScore c.commit.message)).sum := by
      refine sum_map_lower_bound _ _ commits ?_
      intro c hc
      exact commitMessageScore_conventional_long _ (hgood c hc).1 (hgood c hc).2
    have hquot : (1 : ℚ) ≤
        (commits.map (fun c => commitMessageScore c.commit.message)).sum / commits.length := by
      rw [le_div_iff₀ hlenpos]
      calc (1 : ℚ) * commits.length = commits.length := by ring
      _ ≤ (11/10) * commits.length := by nlinarith
      _ ≤ _ := hsum
    exact min_eq_right hquot
  rw [hErased, hFull]
  norm_num

/-- C8 witness: the strict comparison at the singleton list holding
`goodCommit`, whose message is conventional and 67 characters long. -/
theorem conventional_long_messages_score_strictly_higher_witness :
    analyzeCommitMessages
        ([goodCommit].map (fun c => { c with commit := { c.commit with message := "" } })) <
      analyzeCommitMessages [goodCommit] :=
  conventional_long_messages_score_strictly_higher [goodCommit] (by simp) (by decide)

/-- C7: `calculateDeploymentFrequency` divides by weeks elapsed since the
hardcoded `2020-01-01` literal instead of the repository age. For the
repository created 2024-01-01 with one release and no workflow runs, at
2026-01-01 the code yields 7/2192 deployments per week, while a rate per week
of the repository age (731 days) would be 7/731; with zero releases and zero
workflow runs the frequency is 0. -/
theorem deployment_frequency_uses_hardcoded_epoch :
    calculateDeploymentFrequency [demoRelease] { workflow_runs := [], total_count := 0 }
        1767225600000 = 7/2192 ∧
    (1 : ℚ) / ((calculateRepositoryAge demoRepository.created_at 1767225600000 : ℚ) / 7) =
      7/731 ∧
    (7 : ℚ) / 2192 ≠ 7/731 ∧
    calculateDeploymentFrequency [] { workflow_runs := [], total_count := 0 }
        1767225600000 = 0 := by
  have hage2020 : calculateRepositoryAge jan2020 1767225600000 = 2192 := by
    unfold calculateRepositoryAge
    rw [show ((1767225600000 : Int) : ℚ) - ((jan2020 : Int) : ℚ) = 189388800000 by
      norm_num [jan2020]]
    rw [abs_of_nonneg (by norm_num)]
    norm_num
  have hageRepo : calculateRepositoryAge demoRepository.created_at 1767225600000 = 731 := by
    unfold calculateRepositoryAge
    rw [show ((1767225600000 : Int) : ℚ) - ((demoRepository.created_at : Int) : ℚ) =
      63158400000 by norm_num [demoRepository]]
    rw [abs_of_nonneg (by norm_num)]
    norm_num
  refine ⟨?_, ?_, by norm_num, ?_⟩
  · simp only [calculateDeploymentFrequency, hage2020]
    rw [if_neg (by norm_num)]
    simp only [List.filter_nil, List.length_nil, List.length_cons, List.length_nil]
    rw [max_eq_left (by norm_num)]
    norm_num
  · rw [hageRepo]
    norm_num
  · simp only [calculateDeploymentFrequency, hage2020]
    rw [if_neg (by norm_num)]
    simp only [List.filter_nil, List.length_nil]
    norm_num

/-- C5 counterexample: two report generations over identical fetched inputs
(the same repository and the same empty commit list, even at the same wall
clock) produce different `TechnicalDebt` values in the imported
`code-analysis-service.ts` variant, because its `testCoverage` comes from
`Math.random()`: draw 0 gives score 61, draw 1/2 gives score 70. -/
theorem technical_debt_differs_across_identical_runs :
    (analyzeTechnicalDebtRandom freshRepository [] 1767225600000 0 0).score = 61 ∧
    (analyzeTechnicalDebtRandom freshRepository [] 1767225600000 (1/2) 0).score = 70 := by
  have hmsg : analyzeCommitMessages [] = 1/2 := by simp [analyzeCommitMessages]
  have hage : calculateRepositoryAge freshRepository.created_at 1767225600000 = 0 := by
    unfold calculateRepositoryAge
    rw [show ((1767225600000 : Int) : ℚ) - ((freshRepository.created_at : Int) : ℚ) = 0 by
      norm_num [freshRepository, demoRepository]]
    rw [abs_of_nonneg (by norm_num)]
    norm_num
  constructor <;>
  · simp only [analyzeTechnicalDebtRandom, hmsg, hage]
    norm_num

/-- C5 amended: with the wall clock and the randomness source held fixed, the
part_004 pipeline is a deterministic function of the fetched inputs: two runs
over the same environment and clock that differ only in the benchmark draw
agree on all four of `CodeMetrics`, `CodeQuality`, `TechnicalDebt` and
`DeploymentMetrics`; `TechnicalDebt` is nevertheless not determined by the
fetched inputs alone, as the counterexample shows. -/
theorem report_deterministic_given_clock_and_inputs (env : Env)
    (jsonDependencyCount : String → Option Nat) (now : Int) (rand1 rand2 : ℚ) :
    (generateHealthReport env jsonDependencyCount now rand1).map
        (fun r => (r.codeMetrics, r.codeQuality, r.technicalDebt, r.deploymentMetrics)) =
      (generateHealthReport env jsonDependencyCount now rand2).map
        (fun r => (r.codeMetrics, r.codeQuality, r.technicalDebt, r.deploymentMetrics)) := by
  unfold generateHealthReport
  cases getRepository now env.repository with
  | error e => rfl
  | ok repository =>
    cases analyzeCodeMetricsFetched env now with
    | error e => rfl
    | ok codeMetrics =>
      cases analyzeCodeQualityFetched env with
      | error e => rfl
      | ok codeQuality =>
        cases analyzeTechnicalDebt env jsonDependencyCount now with
        | error e => rfl
        | ok technicalDebt =>
          cases analyzeDeploymentMetrics env now with
          | error e => rfl
          | ok deploymentMetrics => rfl

/-- C4 counterexample: in `envProbeFailure` the file-content fetch fails with
a transport error (HTTP 500, not a NotFound probe outcome), yet
`generateHealthReport` still returns a report: the technical-debt estimators
catch the failure internally and substitute defaults instead of failing the
report as a whole. -/
theorem report_survives_transport_error_in_file_probe :
    envProbeFailure.fileContent "package.json" = .error err500 ∧
    err500.status ≠ 404 ∧
    exceptIsOk (generateHealthReport envProbeFailure (fun _ => none) 1767225600000 (1/2)) =
      true :=
  ⟨rfl, by decide, by rfl⟩

theorem exceptIsOk_exists {ε α : Type} {x : Except ε α} (h : exceptIsOk x = true) :
    ∃ a, x = .ok a := by
  cases x with
  | error e => simp [exceptIsOk] at h
  | ok a => exact ⟨a, rfl⟩

/-- C4 amended: Transport/Unknown errors (neither 401 nor 403 here) of the
primary fetches do fail the report as a whole. Each conjunct covers one fetch
of the pipeline in order — repository, languages, commits (page size 30 and
100), pull requests (state all), issues, workflow runs, releases, pull
requests (state closed) — under the premise that the fetches before it
succeeded, and concludes that `generateHealthReport` propagates the generic
error and returns no report. -/
theorem primary_fetch_errors_fail_report (env : Env)
    (jsonDependencyCount : String → Option Nat) (now : Int) (rand : ℚ) (e : ApiErr)
    (hstatus : e.status ≠ 401 ∧ e.status ≠ 403) :
    (env.repository = .error e →
      generateHealthReport env jsonDependencyCount now rand = .error (.generic e)) ∧
    (exceptIsOk (getRepository now env.repository) = true →
      env.languages = .error e →
      generateHealthReport env jsonDependencyCount now rand = .error (.generic e)) ∧
    (exceptIsOk (getRepository now env.repository) = true →
      exceptIsOk (getLanguages env.languages) = true →
      env.commits 30 = .error e →
      generateHealthReport env jsonDependencyCount now rand = .error (.generic e)) ∧
    (exceptIsOk (getRepository now env.repository) = true →
      exceptIsOk (getLanguages env.languages) = true →
      exceptIsOk (getCommits (env.commits 30)) = true →
      env.commits 100 = .error e →
      generateHealthReport env jsonDependencyCount now rand = .error (.generic e)) ∧
    (exceptIsOk (getRepository now env.repository) = true →
      exceptIsOk (getLanguages env.languages) = true →
      exceptIsOk (getCommits (env.commits 30)) = true →
      exceptIsOk (getCommits (env.commits 100)) = true →
      env.pullRequests "all" 50 = .error e →
      generateHealthReport env jsonDependencyCount now rand = .error (.generic e)) ∧
    (exceptIsOk (getRepository now env.repository) = true →
      exceptIsOk (getLanguages env.languages) = true →
      exceptIsOk (getCommits (env.commits 30)) = true →
      exceptIsOk (getCommits (env.commits 100)) = true →
      exceptIsOk (getPullRequests env.hasAuth (env.pullRequests "all" 50)) = true →
      env.issues "all" 100 = .error e →
      generateHealthReport env jsonDependencyCount now rand = .error (.generic e)) ∧
    (exceptIsOk (getRepository now env.repository) = true →
      exceptIsOk (getLanguages env.languages) = true →
      exceptIsOk (getCommits (env.commits 30)) = true →
      exceptIsOk (getCommits (env.commits 100)) = true →
      exceptIsOk (getPullRequests env.hasAuth (env.pullRequests "all" 50)) = true →
      exceptIsOk (getIssues env.hasAuth (env.issues "all" 100)) = true →
      env.workflowRuns = .error e →
      generateHealthReport env jsonDependencyCount now rand = .error (.generic e)) ∧
    (exceptIsOk (getRepository now env.repository) = true →
      exceptIsOk (getLanguages env.languages) = true →
      exceptIsOk (getCommits (env.commits 30)) = true →
      exceptIsOk (getCommits (env.commits 100)) = true →
      exceptIsOk (getPullRequests env.hasAuth (env.pullRequests "all" 50)) = true →
      exceptIsOk (getIssues env.hasAuth (env.issues "all" 100)) = true →
      exceptIsOk (getWorkflowRuns env.hasAuth env.workflowRuns) = true →
      env.releases 50 = .error e →
      generateHealthReport env jsonDependencyCount now rand = .error (.generic e)) ∧
    (exceptIsOk (getRepository now env.repository) = true →
      exceptIsOk (getLanguages env.languages) = true →
      exceptIsOk (getCommits (env.commits 30)) = true →
      exceptIsOk (getCommits (env.commits 100)) = true →
      exceptIsOk (getPullRequests env.hasAuth (env.pullRequests "all" 50)) = true →
      exceptIsOk (getIssues env.hasAuth (env.issues "all" 100)) = true →
      exceptIsOk (getWorkflowRuns env.hasAuth env.workflowRuns) = true →
      exceptIsOk (getReleases (env.releases 50)) = true →
      env.pullRequests "closed" 50 = .error e →
      generateHealthReport env jsonDependencyCount now rand = .error (.generic e)) := by
  obtain ⟨h401, h403⟩ := hstatus
  have hRepoFail : getRepository now (Except.error e) = .error (.generic e) := by
    simp [getRepository, checkRateLimitError, isRateLimitErr, h403]
  have hPRFail : ∀ hasAuth : Bool,
      getPullRequests hasAuth (Except.error e) = .error (.generic e) := by
    intro hasAuth
    simp [getPullRequests, h401, h403]
  have hIssFail : ∀ hasAuth : Bool,
      getIssues hasAuth (Except.error e) = .error (.generic e) := by
    intro hasAuth
    simp [getIssues, h401, h403]
  have hWRFail : ∀ hasAuth : Bool,
      getWorkflowRuns hasAuth (Except.error e) = .error (.generic e) := by
    intro hasAuth
    simp [getWorkflowRuns, h401, h403]
  refine ⟨?_, ?_, ?_, ?_, ?_, ?_, ?_, ?_, ?_⟩
  · intro hfail
    unfold generateHealthReport
    rw [hfail, hRepoFail]
  · intro h1 hfail
    obtain ⟨repository, hR⟩ := exceptIsOk_exists h1
    unfold generateHealthReport analyzeCodeMetricsFetched
    rw [hR, hfail]
    rfl
  · intro h1 h2 hfail
    obtain ⟨repository, hR⟩ := exceptIsOk_exists h1
    obtain ⟨languages, hL⟩ := exceptIsOk_exists h2
    unfold generateHealthReport analyzeCodeMetricsFetched analyzeCodeQualityFetched
    rw [hR, hL, hfail]
    rfl
  · intro h1 h2 h3 hfail
    obtain ⟨repository, hR⟩ := exceptIsOk_exists h1
    obtain ⟨languages, hL⟩ := exceptIsOk_exists h2
    obtain ⟨commits30, hC30⟩ := exceptIsOk_exists h3
    unfold generateHealthReport analyzeCodeMetricsFetched analyzeCodeQualityFetched
      analyzeTechnicalDebt
    rw [hR, hL, hC30, hfail]
    rfl
  · intro h1 h2 h3 h4 hfail
    obtain ⟨repository, hR⟩ := exceptIsOk_exists h1
    obtain ⟨languages, hL⟩ := exceptIsOk_exists h2
    obtain ⟨commits30, hC30⟩ := exceptIsOk_exists h3
    obtain ⟨commits100, hC100⟩ := exceptIsOk_exists h4
    unfold generateHealthReport analyzeCodeMetricsFetched analyzeCodeQualityFetched
      analyzeTechnicalDebt
    rw [hR, hL, hC30, hC100, hfail, hPRFail]
  · intro h1 h2 h3 h4 h5 hfail
    obtain ⟨repository, hR⟩ := exceptIsOk_exists h1
    obtain ⟨languages, hL⟩ := exceptIsOk_exists h2
    obtain ⟨commits30, hC30⟩ := exceptIsOk_exists h3
    obtain ⟨commits100, hC100⟩ := exceptIsOk_exists h4
    obtain ⟨prsAll, hPA⟩ := exceptIsOk_exists h5
    unfold generateHealthReport analyzeCodeMetricsFetched analyzeCodeQualityFetched
      analyzeTechnicalDebt
    rw [hR, hL, hC30, hC100, hPA, hfail, hIssFail]
  · intro h1 h2 h3 h4 h5 h6 hfail
    obtain ⟨repository, hR⟩ := exceptIsOk_exists h1
    obtain ⟨languages, hL⟩ := exceptIsOk_exists h2
    obtain ⟨commits30, hC30⟩ := exceptIsOk_exists h3
    obtain ⟨commits100, hC100⟩ := exceptIsOk_exists h4
    obtain ⟨prsAll, hPA⟩ := exceptIsOk_exists h5
    obtain ⟨issuesAll, hIA⟩ := exceptIsOk_exists h6
    unfold generateHealthReport analyzeCodeMetricsFetched analyzeCodeQualityFetched
      analyzeTechnicalDebt analyzeDeploymentMetrics
    rw [hR, hL, hC30, hC100, hPA, hIA, hfail, hWRFail]
  · intro h1 h2 h3 h4 h5 h6 h7 hfail
    obtain ⟨repository, hR⟩ := exceptIsOk_exists h1
    obtain ⟨languages, hL⟩ := exceptIsOk_exists h2
    obtain ⟨commits30, hC30⟩ := exceptIsOk_exists h3
    obtain ⟨commits100, hC100⟩ := exceptIsOk_exists h4
    obtain ⟨prsAll, hPA⟩ := exceptIsOk_exists h5
    obtain ⟨issuesAll, hIA⟩ := exceptIsOk_exists h6
    obtain ⟨workflowRuns, hW⟩ := exceptIsOk_exists h7
    unfold generateHealthReport analyzeCodeMetricsFetched analyzeCodeQualityFetched
      analyzeTechnicalDebt analyzeDeploymentMetrics
    rw [hR, hL, hC30, hC100, hPA, hIA, hW, hfail]
    rfl
  · intro h1 h2 h3 h4 h5 h6 h7 h8 hfail
    obtain ⟨repository, hR⟩ := exceptIsOk_exists h1
    obtain ⟨languages, hL⟩ := exceptIsOk_exists h2
    obtain ⟨commits30, hC30⟩ := exceptIsOk_exists h3
    obtain ⟨commits100, hC100⟩ := exceptIsOk_exists h4
    obtain ⟨prsAll, hPA⟩ := exceptIsOk_exists h5
    obtain ⟨issuesAll, hIA⟩ := exceptIsOk_exists h6
    obtain ⟨workflowRuns, hW⟩ := exceptIsOk_exists h7
    obtain ⟨releases, hRel⟩ := exceptIsOk_exists h8
    unfold generateHealthReport analyzeCodeMetricsFetched analyzeCodeQualityFetched
      analyzeTechnicalDebt analyzeDeploymentMetrics
    rw [hR, hL, hC30, hC100, hPA, hIA, hW, hRel, hfail, hPRFail]

/-- C4 witness: the propagation at three concrete environments, failing
respectively at the repository fetch, the languages fetch and the
workflow-runs fetch with the transport error `err500`. -/
theorem primary_fetch_errors_fail_report_witness :
    generateHealthReport envRepositoryDown (fun _ => none) 1767225600000 (1/2) =
      .error (.generic err500) ∧
    generateHealthReport envLanguagesDown (fun _ => none) 1767225600000 (1/2) =
      .error (.generic err500) ∧
    generateHealthReport envWorkflowRunsDown (fun _ => none) 1767225600000 (1/2) =
      .error (.generic err500) :=
  ⟨(primary_fetch_errors_fail_report envRepositoryDown (fun _ => none) 1767225600000 (1/2)
      err500 (by decide)).1 rfl,
   (primary_fetch_errors_fail_report envLanguagesDown (fun _ => none) 1767225600000 (1/2)
      err500 (by decide)).2.1 (by rfl) rfl,
   (primary_fetch_errors_fail_report envWorkflowRunsDown (fun _ => none) 1767225600000 (1/2)
      err500 (by decide)).2.2.2.2.2.2.1 (by rfl) (by rfl) (by rfl) (by rfl) (by rfl)
      (by rfl) rfl⟩
